import Mathlib

/-
Shallow embedding of the assistant-chatbot backend (two variants):
  src/main.py        -- the later variant: JSON-file persistence (db.json),
                        GET /sessions/, DELETE /sessions/{id}, /upload-pdf/, /chat/
  src/backend_api.py -- the earlier variant: in-memory sessions only,
                        get_session auto-creates, /upload-pdf/, /chat/

Python dicts are modelled as insertion-ordered association lists with unique-key
update semantics (dictSet / dictDel below).  The json library is modelled as a
trusted codec at the level of JSON values: a file written by json.dump holds the
dumped value (DBFile.wellFormed), and json.load of such a file returns that
value; unparseable bytes are DBFile.malformed (json.load raises JSONDecodeError).
The external collaborators (PyPDFLoader + splitter + embeddings + FAISS, and the
LLM chain) are abstracted by an Oracle: ingest maps uploaded bytes to an index
handle or a failure, llm maps (index handle, history string, query) to an answer
or a failure, hfToken says whether HUGGINGFACEHUB_API_TOKEN is set.
-/

/-- JSON values as produced and consumed by Python's json library. -/
inductive Json where
  | null
  | bool (b : Bool)
  | num (n : Int)
  | str (s : String)
  | arr (elems : List Json)
  | obj (fields : List (String × Json))

/-- The state of the backing file db.json, classified the way
`load_sessions` (src/main.py lines 45-58) observes it:
absent (`os.path.exists` false), present but size 0, present and non-empty but
not valid JSON (`json.load` raises `JSONDecodeError`), or valid JSON. -/
inductive DBFile where
  | absent
  | emptyFile
  | malformed
  | wellFormed (j : Json)

/-- One session record as created by `upload_pdf` in src/main.py lines 156-160:
`{"title": ..., "history": [...], "uploaded_file": ...}`.  `history` holds the
flat strings `"Human: ..."` / `"AI: ..."` that the code appends. -/
structure SessionData where
  title : String
  history : List String
  uploaded_file : String
deriving DecidableEq

/-- Python dict assignment `d[k] = v`: update the existing binding in place,
else append a new binding (insertion order). -/
def dictSet (d : List (String × α)) (k : String) (v : α) : List (String × α) :=
  if (List.lookup k d).isSome then
    d.map (fun p => if p.1 = k then (k, v) else p)
  else
    d ++ [(k, v)]

/-- Python dict deletion `del d[k]`. -/
def dictDel (d : List (String × α)) (k : String) : List (String × α) :=
  d.filter (fun p => p.1 ≠ k)

/-- Global mutable state of src/main.py: `SESSION_MEMORY` (line 39),
`VECTOR_STORES` (line 38, handles abstracted as Nat), the backing file
`db.json` (line 40), and the upload directory's disk contents as a map from
path to file bytes (abstracted as Nat). -/
structure ServerState where
  session_memory : List (String × SessionData)
  vector_stores : List (String × Nat)
  db_file : DBFile
  disk : List (String × Nat)

/-- External collaborators (§1/§6 of the spec): document ingestion
(PyPDFLoader + RecursiveCharacterTextSplitter + HuggingFaceEmbeddings +
FAISS.from_documents) as a function of the uploaded bytes, the LLM retrieval
chain as a function of (index handle, joined history, query), and presence of
the HuggingFace API token read by `get_rag_chain` (src/main.py line 71). -/
structure Oracle where
  ingest : Nat → Except String Nat
  llm : Nat → String → String → Except String String
  hfToken : Bool

/-- src/main.py line 41: `UPLOAD_DIR = "./uploaded_pdfs"`. -/
def UPLOAD_DIR : String := "./uploaded_pdfs"

/-- `os.path.join(UPLOAD_DIR, filename)` for a relative filename
(src/main.py lines 135 and 194): the path depends only on the filename,
never on the session id. -/
def uploadPath (filename : String) : String :=
  UPLOAD_DIR ++ "/" ++ filename

/-- JSON encoding of one session record, as json.dump serializes the dict
built at src/main.py lines 156-160. -/
def encodeRec (r : SessionData) : Json :=
  Json.obj [("title", Json.str r.title),
            ("history", Json.arr (r.history.map Json.str)),
            ("uploaded_file", Json.str r.uploaded_file)]

/-- JSON encoding of the whole `SESSION_MEMORY` dict. -/
def encodeStore (sm : List (String × SessionData)) : Json :=
  Json.obj (sm.map (fun p => (p.1, encodeRec p.2)))

def decodeStr : Json → Option String
  | Json.str s => some s
  | _ => none

def decodeStrs : List Json → Option (List String)
  | [] => some []
  | j :: js =>
    match j with
    | Json.str s => (decodeStrs js).map (fun r => s :: r)
    | _ => none

/-- Decode one session record back from its JSON form. -/
def decodeRec : Json → Option SessionData
  | Json.obj fields => do
    let t ← (List.lookup "title" fields).bind decodeStr
    let h ← match List.lookup "history" fields with
            | some (Json.arr js) => decodeStrs js
            | _ => none
    let u ← (List.lookup "uploaded_file" fields).bind decodeStr
    pure ⟨t, h, u⟩
  | _ => none

def decodeEntries : List (String × Json) → Option (List (String × SessionData))
  | [] => some []
  | (k, j) :: rest => do
    let r ← decodeRec j
    let rs ← decodeEntries rest
    pure ((k, r) :: rs)

/-- Decode a whole sessions dict back from its JSON form. -/
def decodeStore : Json → Option (List (String × SessionData))
  | Json.obj fields => decodeEntries fields
  | _ => none

/-- Possible exception of `load_sessions` outside the caught
`JSONDecodeError`: `data.get` on a non-dict raises (AttributeError). -/
inductive PyErr where
  | attributeError
deriving DecidableEq

/-- src/main.py lines 45-58, `load_sessions`: if the file is absent or has
size 0, or json.load raises JSONDecodeError, start with an empty store;
otherwise `SESSION_MEMORY = data.get("sessions", {})` — the raw JSON value
stored under "sessions", defaulting to the empty dict.  `data.get` on a
non-dict top level raises, which no handler catches. -/
def load_sessions : DBFile → Except PyErr Json
  | DBFile.absent => Except.ok (Json.obj [])
  | DBFile.emptyFile => Except.ok (Json.obj [])
  | DBFile.malformed => Except.ok (Json.obj [])
  | DBFile.wellFormed j =>
    match j with
    | Json.obj fields => Except.ok ((List.lookup "sessions" fields).getD (Json.obj []))
    | _ => Except.error PyErr.attributeError

/-- src/main.py lines 60-63, `save_sessions`: json.dump of
`{"sessions": SESSION_MEMORY}` to db.json.  Only `SESSION_MEMORY` is
serialized; `VECTOR_STORES` is not persisted. -/
def save_sessions (st : ServerState) : ServerState :=
  { st with db_file := DBFile.wellFormed (Json.obj [("sessions", encodeStore st.session_memory)]) }

/-- Result of DELETE /sessions/{session_id} (src/main.py lines 116-125). -/
inductive DeleteResult where
  | ok (message : String)
  | notFound404
deriving DecidableEq

/-- src/main.py lines 116-125, `delete_session`: if the id is a key of
`SESSION_MEMORY`, delete it there and from `VECTOR_STORES` if present, persist,
and answer 200; otherwise raise HTTPException 404. -/
def delete_session (session_id : String) (st : ServerState) : DeleteResult × ServerState :=
  if (List.lookup session_id st.session_memory).isSome then
    let st1 := { st with session_memory := dictDel st.session_memory session_id,
                         vector_stores := dictDel st.vector_stores session_id }
    (DeleteResult.ok ("Session " ++ session_id ++ " deleted successfully."),
     save_sessions st1)
  else
    (DeleteResult.notFound404, st)

/-- Result of POST /upload-pdf/ in src/main.py.  Every failure path surfaces
as HTTPException 500: the handler's blanket `except Exception` (line 165)
also catches the HTTPException(400) raised at line 132 and re-raises it as
`500, "An error occurred during processing: 400: Invalid file type. ..."`
(str() of a starlette HTTPException is "status: detail"). -/
inductive UploadResult where
  | ok (session_id : String)
  | error500 (detail : String)
deriving DecidableEq

/-- src/main.py lines 127-171, `upload_pdf`: reject non-PDF content types
before touching the disk (but see `UploadResult` on the resulting status
code), then write the uploaded bytes to `UPLOAD_DIR/filename`, ingest them
(loader + splitter + embeddings + FAISS), store the index handle in
`VECTOR_STORES[session_id]`, overwrite `SESSION_MEMORY[session_id]` with a
fresh record (empty history), and persist.  If ingestion fails, the written
file stays on disk (the `finally` block deliberately does not remove it). -/
def upload_pdf (o : Oracle) (content_type filename : String) (content : Nat)
    (session_id : String) (st : ServerState) : UploadResult × ServerState :=
  if content_type ≠ "application/pdf" then
    (UploadResult.error500
      "An error occurred during processing: 400: Invalid file type. Only PDFs are allowed.",
     st)
  else
    let st1 := { st with disk := dictSet st.disk (uploadPath filename) content }
    match o.ingest content with
    | Except.error e =>
      (UploadResult.error500 ("An error occurred during processing: " ++ e), st1)
    | Except.ok h =>
      let st2 := { st1 with
        vector_stores := dictSet st1.vector_stores session_id h,
        session_memory := dictSet st1.session_memory session_id ⟨filename, [], filename⟩ }
      (UploadResult.ok session_id, save_sessions st2)

/-- Result of POST /chat/ in src/main.py, one constructor per distinct exit
of `chat_endpoint` (lines 178-229): 200 with the answer; 404 "Session not
found." (line 185); 400 "No document uploaded for this session." (line 190);
500 "Failed to reload document: ..." (line 205, covering both the
FileNotFoundError raised at line 196 and any rebuild failure); 401 for a
missing HuggingFace token (ValueError from `get_rag_chain`, caught at lines
223-225); 500 "An error occurred: ..." for a chain failure (line 229). -/
inductive ChatResult where
  | ok (answer : String)
  | notFound404
  | noDocument400
  | reloadFailed500 (detail : String)
  | unauthorized401
  | llmFailed500 (detail : String)
deriving DecidableEq

/-- src/main.py lines 178-229, `chat_endpoint`.  Unknown session id: 404.
If no live vector store: a record whose `uploaded_file` is falsy (empty
string) gives 400; otherwise the index is rebuilt from the file at
`UPLOAD_DIR/uploaded_file`, failing with 500 "Failed to reload document..."
when the file is gone or ingestion fails.  Then `get_rag_chain` needs the
HuggingFace token (else 401), the chain is invoked on the query and the
newline-joined history, and on success the pair
`["Human: " + query, "AI: " + answer]` is appended to the record's history
and the store is persisted. -/
def chat_endpoint (o : Oracle) (session_id user_query : String) (st : ServerState) :
    ChatResult × ServerState :=
  match List.lookup session_id st.session_memory with
  | none => (ChatResult.notFound404, st)
  | some sd =>
    let ensured : ChatResult ⊕ (ServerState × Nat) :=
      match List.lookup session_id st.vector_stores with
      | some h => Sum.inr (st, h)
      | none =>
        if sd.uploaded_file = "" then Sum.inl ChatResult.noDocument400
        else
          match List.lookup (uploadPath sd.uploaded_file) st.disk with
          | none =>
            Sum.inl (ChatResult.reloadFailed500
              ("Failed to reload document: File " ++ uploadPath sd.uploaded_file ++ " not found."))
          | some c =>
            match o.ingest c with
            | Except.error e =>
              Sum.inl (ChatResult.reloadFailed500 ("Failed to reload document: " ++ e))
            | Except.ok h =>
              Sum.inr ({ st with vector_stores := dictSet st.vector_stores session_id h }, h)
    match ensured with
    | Sum.inl r => (r, st)
    | Sum.inr (st1, h) =>
      if o.hfToken = false then (ChatResult.unauthorized401, st1)
      else
        match o.llm h (String.intercalate "\n" sd.history) user_query with
        | Except.error e => (ChatResult.llmFailed500 ("An error occurred: " ++ e), st1)
        | Except.ok a =>
          let sd1 := { sd with history := sd.history ++ ["Human: " ++ user_query, "AI: " ++ a] }
          let st2 := { st1 with session_memory := dictSet st1.session_memory session_id sd1 }
          (ChatResult.ok a, save_sessions st2)

/-- N sequential calls of `chat_endpoint` against one session, threading the
state and discarding responses. -/
def chat_calls (o : Oracle) (session_id : String) : List String → ServerState → ServerState
  | [], st => st
  | q :: qs, st => chat_calls o session_id qs (chat_endpoint o session_id q st).2

/-- The user/assistant turn strings that N (query, answer) pairs contribute to
a record's `history`, in call order. -/
def pairsOf : List (String × String) → List String
  | [] => []
  | (q, a) :: ps => ("Human: " ++ q) :: ("AI: " ++ a) :: pairsOf ps

/-- One session value of src/backend_api.py (line 58):
`{"vector_store": None, "memory": ConversationBufferMemory(...)}`.  The
memory object is an opaque collaborator not consulted by any claim, so only
the vector-store slot is modelled. -/
structure BSession where
  vector_store : Option Nat
deriving DecidableEq

/-- src/backend_api.py lines 53-65, `get_session`: look the id up in the
module-level `sessions` dict, and if it is absent CREATE a fresh record
`{"vector_store": None, "memory": ...}` under that id as a side effect,
returning the (found or created) record. -/
def get_session (session_id : String) (sessions : List (String × BSession)) :
    BSession × List (String × BSession) :=
  match List.lookup session_id sessions with
  | some s => (s, sessions)
  | none => (⟨none⟩, sessions ++ [(session_id, ⟨none⟩)])

/-- Result of POST /chat/ in src/backend_api.py: 200 with the answer,
400 "PDF not processed for this session..." (line 124), or 500 (line 146). -/
inductive BChatResult where
  | ok (answer : String)
  | noPdf400
  | error500
deriving DecidableEq

/-- HTTP status code of a src/backend_api.py chat response. -/
def BChatResult.statusCode : BChatResult → Nat
  | BChatResult.ok _ => 200
  | BChatResult.noPdf400 => 400
  | BChatResult.error500 => 500

/-- src/backend_api.py lines 110-146, `chat`: `get_session` (which creates a
record for an unknown id), then 400 if the session has no vector store, else
the ConversationalRetrievalChain is invoked (its ConversationBufferMemory is
internal to the chain, abstracted as the empty history string here); a chain
failure is a 500. -/
def backend_chat (o : Oracle) (session_id user_query : String)
    (sessions : List (String × BSession)) : BChatResult × List (String × BSession) :=
  let found := get_session session_id sessions
  match found.1.vector_store with
  | none => (BChatResult.noPdf400, found.2)
  | some h =>
    match o.llm h "" user_query with
    | Except.ok a => (BChatResult.ok a, found.2)
    | Except.error _ => (BChatResult.error500, found.2)

/-- Result of POST /upload-pdf/ in src/backend_api.py: 200 or 500. -/
inductive BUploadResult where
  | ok (session_id : String)
  | error500
deriving DecidableEq

/-- src/backend_api.py lines 73-107, `upload_pdf`: no content-type check at
all.  `get_session` first (creating the record for a new id), then the
uploaded bytes are written to `uploaded_pdfs/filename` (again a path
independent of the session id), then ingestion; on ingestion failure the
written file is removed (line 106) and the response is 500, on success the
session's vector-store slot is set and the response is 200 — even when the
declared content type was not PDF. -/
def backend_upload (o : Oracle) (content_type filename : String) (content : Nat)
    (session_id : String) (sessions : List (String × BSession)) (disk : List (String × Nat)) :
    BUploadResult × List (String × BSession) × List (String × Nat) :=
  let found := get_session session_id sessions
  let path := "uploaded_pdfs/" ++ filename
  let disk1 := dictSet disk path content
  match o.ingest content with
  | Except.error _ => (BUploadResult.error500, found.2, dictDel disk1 path)
  | Except.ok h => (BUploadResult.ok session_id, dictSet found.2 session_id ⟨some h⟩, disk1)

/-- A concrete oracle for evaluating the model on concrete inputs: ingestion
returns the bytes as the handle, the chain always answers "ok", the token is
present. -/
def testOracle : Oracle :=
  { ingest := fun c => Except.ok c,
    llm := fun _ _ _ => Except.ok "ok",
    hfToken := true }

/-- The observable `{session_id: (title, history)}` mapping of a store. -/
def titleHistoryMap (sm : List (String × SessionData)) :
    List (String × (String × List String)) :=
  sm.map (fun p => (p.1, (p.2.title, p.2.history)))

/-- Both components of session `t` (the record and the index handle) are the
same in `st'` as in `st`. -/
def preservesOther (st st' : ServerState) (t : String) : Prop :=
  List.lookup t st'.session_memory = List.lookup t st.session_memory ∧
  List.lookup t st'.vector_stores = List.lookup t st.vector_stores

/-- A concrete server state for evaluating the model: one session "s1" with
an uploaded document, a live index handle, and its file on disk. -/
def demoState : ServerState :=
  { session_memory := [("s1", ⟨"doc.pdf", [], "doc.pdf"⟩)],
    vector_stores := [("s1", 7)],
    db_file := DBFile.absent,
    disk := [(uploadPath "doc.pdf", 7)] }

/-- A concrete server state with a session whose record has no uploaded file
and no live index. -/
def demoStateNoDoc : ServerState :=
  { session_memory := [("s2", ⟨"New Chat", [], ""⟩)],
    vector_stores := [],
    db_file := DBFile.absent,
    disk := [] }

/-- A concrete server state with a record whose index handle is gone but
whose source file is still on disk, and a second record whose file is gone. -/
def demoStateCold : ServerState :=
  { session_memory := [("s1", ⟨"doc.pdf", ["Human: hi", "AI: ok"], "doc.pdf"⟩),
                       ("s3", ⟨"gone.pdf", [], "gone.pdf"⟩)],
    vector_stores := [],
    db_file := DBFile.absent,
    disk := [(uploadPath "doc.pdf", 7)] }

/-! Association-list lemmas for the Python-dict operations. -/

theorem lookup_mapUpdate_self (d : List (String × α)) (k : String) (v : α) :
    List.lookup k (d.map (fun p => if p.1 = k then (k, v) else p)) =
      if (List.lookup k d).isSome then some v else none := by
  induction d with
  | nil => simp
  | cons p d ih =>
    obtain ⟨k0, v0⟩ := p
    by_cases hk : k0 = k
    · subst hk
      simp [List.lookup_cons]
    · have hb : (k == k0) = false := by
        simp [Ne.symm hk]
      simp only [List.map_cons, if_neg hk, List.lookup_cons, hb]
      exact ih

theorem lookup_mapUpdate_ne (d : List (String × α)) (k k' : String) (v : α)
    (h : k' ≠ k) :
    List.lookup k' (d.map (fun p => if p.1 = k then (k, v) else p)) =
      List.lookup k' d := by
  induction d with
  | nil => simp
  | cons p d ih =>
    obtain ⟨k0, v0⟩ := p
    by_cases hk : k0 = k
    · subst hk
      have hb : (k' == k0) = false := by simp [h]
      simp only [List.map_cons, List.lookup_cons, hb, eq_self_iff_true, if_true]
      exact ih
    · simp only [List.map_cons, if_neg hk, List.lookup_cons]
      cases hc : (k' == k0) with
      | true => rfl
      | false => exact ih

theorem lookup_dictSet_self (d : List (String × α)) (k : String) (v : α) :
    List.lookup k (dictSet d k v) = some v := by
  unfold dictSet
  by_cases h : (List.lookup k d).isSome
  · rw [if_pos h, lookup_mapUpdate_self, if_pos h]
  · rw [if_neg h, List.lookup_append]
    have hnone : List.lookup k d = none := by
      cases hc : List.lookup k d with
      | none => rfl
      | some w => rw [hc] at h; simp at h
    simp [hnone]

theorem lookup_dictSet_ne (d : List (String × α)) (k k' : String) (v : α)
    (h : k' ≠ k) :
    List.lookup k' (dictSet d k v) = List.lookup k' d := by
  unfold dictSet
  by_cases hs : (List.lookup k d).isSome
  · rw [if_pos hs, lookup_mapUpdate_ne _ _ _ _ h]
  · rw [if_neg hs, List.lookup_append]
    have hb : (k' == k) = false := by simp [h]
    cases hc : List.lookup k' d with
    | none => simp [List.lookup_cons, hb]
    | some w => rfl

theorem lookup_dictDel_self (d : List (String × α)) (k : String) :
    List.lookup k (dictDel d k) = none := by
  induction d with
  | nil => simp [dictDel]
  | cons p d ih =>
    obtain ⟨k0, v0⟩ := p
    by_cases hk : k0 = k
    · subst hk
      simpa [dictDel] using ih
    · have hb : (k == k0) = false := by simp [Ne.symm hk]
      simpa [dictDel, hk, List.lookup_cons, hb] using ih

theorem lookup_dictDel_ne (d : List (String × α)) (k k' : String)
    (h : k' ≠ k) :
    List.lookup k' (dictDel d k) = List.lookup k' d := by
  induction d with
  | nil => simp [dictDel]
  | cons p d ih =>
    obtain ⟨k0, v0⟩ := p
    by_cases hk : k0 = k
    · subst hk
      have hb : (k' == k0) = false := by simp [h]
      simpa [dictDel, List.lookup_cons, hb] using ih
    · by_cases hk' : k0 = k'
      · subst hk'
        simp [dictDel, hk, List.lookup_cons]
      · have hb : (k' == k0) = false := by simp [Ne.symm hk']
        simpa [dictDel, hk, List.lookup_cons, hb] using ih

/-! Round-trip lemmas for the JSON codec of the session store. -/

theorem decodeStrs_map_str (xs : List String) :
    decodeStrs (xs.map Json.str) = some xs := by
  induction xs with
  | nil => rfl
  | cons x xs ih => simp [decodeStrs, ih]

theorem decodeRec_encodeRec (r : SessionData) :
    decodeRec (encodeRec r) = some r := by
  obtain ⟨t, h, u⟩ := r
  simp [decodeRec, encodeRec, List.lookup_cons, decodeStrs_map_str, decodeStr]

theorem decodeEntries_encode (sm : List (String × SessionData)) :
    decodeEntries (sm.map (fun p => (p.1, encodeRec p.2))) = some sm := by
  induction sm with
  | nil => rfl
  | cons p sm ih =>
    obtain ⟨k, r⟩ := p
    simp [decodeEntries, decodeRec_encodeRec, ih]

theorem decodeStore_encodeStore (sm : List (String × SessionData)) :
    decodeStore (encodeStore sm) = some sm := by
  simp [decodeStore, encodeStore, decodeEntries_encode]

/-- C1: for every store state (all records are JSON-serializable in this
model: a title string, a list of history strings and an uploaded-file
string), `save_sessions` followed by `load_sessions` recovers exactly the
serialized session store — so in particular the same
`{session_id: (title, history)}` mapping — and what is persisted is built
from `SESSION_MEMORY` alone, excluding the `VECTOR_STORES` index handles. -/
theorem persist_reload_roundtrip (st : ServerState) :
    load_sessions (save_sessions st).db_file = Except.ok (encodeStore st.session_memory) ∧
    decodeStore (encodeStore st.session_memory) = some st.session_memory ∧
    (decodeStore (encodeStore st.session_memory)).map titleHistoryMap =
      some (titleHistoryMap st.session_memory) ∧
    (save_sessions st).db_file =
      DBFile.wellFormed (Json.obj [("sessions", encodeStore st.session_memory)]) := by
  refine ⟨?_, decodeStore_encodeStore _, ?_, rfl⟩
  · simp [save_sessions, load_sessions, List.lookup_cons]
  · rw [decodeStore_encodeStore]
    rfl

/-- A successful /chat/ call with a live vector store: the response is 200
with the chain's answer and the only change to the record is the appended
(user, assistant) pair, followed by persistence. -/
theorem chat_endpoint_ok_step (o : Oracle) (sid q : String) (st : ServerState)
    (sd : SessionData) (h : Nat) (a : String)
    (hm : List.lookup sid st.session_memory = some sd)
    (hv : List.lookup sid st.vector_stores = some h)
    (tok : o.hfToken = true)
    (ha : o.llm h (String.intercalate "\n" sd.history) q = Except.ok a) :
    chat_endpoint o sid q st =
      (ChatResult.ok a,
       save_sessions { st with
                       session_memory := dictSet st.session_memory sid
                         ⟨sd.title, sd.history ++ ["Human: " ++ q, "AI: " ++ a], sd.uploaded_file⟩ }) := by
  simp [chat_endpoint, hm, hv, tok, ha]

/-- C3: N sequential successful /chat/ calls against a session append exactly
one (user, assistant) pair each, in call order: the final history is the old
history followed by the interleaved `"Human: ..."`/`"AI: ..."` pairs whose
user turns are the queries in order, so a session that starts with an empty
history ends with exactly 2N alternating entries, and previously appended
turns keep their relative order (they remain an unchanged prefix). -/
theorem append_turn_order_preserving (o : Oracle) (sid : String) (qs : List String)
    (st : ServerState) (sd : SessionData) (h : Nat)
    (hm : List.lookup sid st.session_memory = some sd)
    (hv : List.lookup sid st.vector_stores = some h)
    (tok : o.hfToken = true)
    (hllm : ∀ hh hist q, ∃ a, o.llm hh hist q = Except.ok a) :
    ∃ ps : List (String × String),
      ps.map Prod.fst = qs ∧
      List.lookup sid (chat_calls o sid qs st).session_memory =
        some ⟨sd.title, sd.history ++ pairsOf ps, sd.uploaded_file⟩ ∧
      (pairsOf ps).length = 2 * qs.length := by
  induction qs generalizing st sd with
  | nil =>
    refine ⟨[], rfl, ?_, rfl⟩
    simpa [chat_calls, pairsOf] using hm
  | cons q qs ih =>
    obtain ⟨a, ha⟩ := hllm h (String.intercalate "\n" sd.history) q
    have hstep := chat_endpoint_ok_step o sid q st sd h a hm hv tok ha
    set st' := save_sessions { st with
                 session_memory := dictSet st.session_memory sid
                   ⟨sd.title, sd.history ++ ["Human: " ++ q, "AI: " ++ a], sd.uploaded_file⟩ } with hst'
    have hm' : List.lookup sid st'.session_memory =
        some ⟨sd.title, sd.history ++ ["Human: " ++ q, "AI: " ++ a], sd.uploaded_file⟩ := by
      simp [hst', save_sessions, lookup_dictSet_self]
    have hv' : List.lookup sid st'.vector_stores = some h := by
      simpa [hst', save_sessions] using hv
    obtain ⟨ps, hfst, hlook, hlen⟩ := ih st' _ hm' hv'
    refine ⟨(q, a) :: ps, by simp [hfst], ?_, ?_⟩
    · have hcalls : chat_calls o sid (q :: qs) st = chat_calls o sid qs st' := by
        simp [chat_calls, hstep]
      rw [hcalls]
      simpa [pairsOf, List.append_assoc] using hlook
    · simp only [pairsOf, List.length_cons, List.length]
      omega

/-- C2: `load_sessions` on an absent, empty, or unparseable (corrupted)
db.json initializes the empty session store and raises no exception, so
startup does not fail for any such backing-file content. -/
theorem load_sessions_tolerates_bad_file :
    load_sessions DBFile.absent = Except.ok (Json.obj []) ∧
    load_sessions DBFile.emptyFile = Except.ok (Json.obj []) ∧
    load_sessions DBFile.malformed = Except.ok (Json.obj []) := by
  exact ⟨rfl, rfl, rfl⟩

/-- C4 counterexample: in src/backend_api.py, a chat request for a session id
absent from the (empty) store does not fail with 404 — it answers 400 — and
it DOES create a new session record as a side effect of `get_session`. -/
theorem chat_unknown_session_counterexample :
    (backend_chat testOracle "s1" "hello" []).1.statusCode ≠ 404 ∧
    (backend_chat testOracle "s1" "hello" []).2 = [("s1", ⟨none⟩)] := by
  exact ⟨by decide, rfl⟩

/-- C4 (amended): in src/main.py, chat on an unknown session id fails with
404 and leaves the state untouched, and chat on an existing record with no
live index and no associated document fails with 400, again creating
nothing; in src/backend_api.py, however, chat on an unknown session id
auto-creates an empty record as a side effect of the lookup and then fails
with 400 (there is no 404 path). -/
theorem chat_unknown_session_amended :
    (∀ (o : Oracle) (sid q : String) (st : ServerState),
        List.lookup sid st.session_memory = none →
        chat_endpoint o sid q st = (ChatResult.notFound404, st)) ∧
    (∀ (o : Oracle) (sid q : String) (st : ServerState) (sd : SessionData),
        List.lookup sid st.session_memory = some sd →
        List.lookup sid st.vector_stores = none →
        sd.uploaded_file = "" →
        chat_endpoint o sid q st = (ChatResult.noDocument400, st)) ∧
    (∀ (o : Oracle) (sid q : String) (sessions : List (String × BSession)),
        List.lookup sid sessions = none →
        (backend_chat o sid q sessions).1 = BChatResult.noPdf400 ∧
        (backend_chat o sid q sessions).2 = sessions ++ [(sid, ⟨none⟩)]) := by
  refine ⟨?_, ?_, ?_⟩
  · intro o sid q st hm
    simp [chat_endpoint, hm]
  · intro o sid q st sd hm hv hu
    simp [chat_endpoint, hm, hv, hu]
  · intro o sid q sessions hm
    simp [backend_chat, get_session, hm]

/-- C5: deleting a present session id answers 200 and removes both the
record and any live index handle, so a subsequent store lookup finds nothing
and a subsequent chat on that id fails with 404; deleting an absent id
itself fails with 404 and changes nothing. -/
theorem delete_session_semantics (sid : String) (st : ServerState) :
    (∀ r, List.lookup sid st.session_memory = some r →
      (delete_session sid st).1 =
          DeleteResult.ok ("Session " ++ sid ++ " deleted successfully.") ∧
      List.lookup sid (delete_session sid st).2.session_memory = none ∧
      List.lookup sid (delete_session sid st).2.vector_stores = none ∧
      (∀ (o : Oracle) (q : String),
        chat_endpoint o sid q (delete_session sid st).2 =
          (ChatResult.notFound404, (delete_session sid st).2))) ∧
    (List.lookup sid st.session_memory = none →
      delete_session sid st = (DeleteResult.notFound404, st)) := by
  constructor
  · intro r hr
    have hs : (List.lookup sid st.session_memory).isSome := by simp [hr]
    have hdel : delete_session sid st =
        (DeleteResult.ok ("Session " ++ sid ++ " deleted successfully."),
         save_sessions { st with session_memory := dictDel st.session_memory sid,
                                 vector_stores := dictDel st.vector_stores sid }) := by
      simp [delete_session, hs]
    rw [hdel]
    refine ⟨rfl, ?_, ?_, ?_⟩
    · simp [save_sessions, lookup_dictDel_self]
    · simp [save_sessions, lookup_dictDel_self]
    · intro o q
      simp [chat_endpoint, save_sessions, lookup_dictDel_self]
  · intro h
    have hs : ¬ (List.lookup sid st.session_memory).isSome := by simp [h]
    simp [delete_session, hs]

/-- C6: chat on an existing record whose index handle is missing: when the
recorded source file is still on disk and the collaborators succeed, the
index is rebuilt transparently before the query (the fresh handle ends up in
the vector-store map) and chat answers 200 with the chain's answer; when the
file no longer exists, chat fails with the distinct 500 response
"Failed to reload document: File ... not found." — the code's realization of
DocumentUnavailableError — and with no other failure kind. -/
theorem chat_lazy_rebuild (o : Oracle) (sid q : String) (st : ServerState)
    (sd : SessionData)
    (hm : List.lookup sid st.session_memory = some sd)
    (hv : List.lookup sid st.vector_stores = none)
    (hu : sd.uploaded_file ≠ "") :
    (∀ c h a, List.lookup (uploadPath sd.uploaded_file) st.disk = some c →
      o.ingest c = Except.ok h →
      o.hfToken = true →
      o.llm h (String.intercalate "\n" sd.history) q = Except.ok a →
      (chat_endpoint o sid q st).1 = ChatResult.ok a ∧
      List.lookup sid (chat_endpoint o sid q st).2.vector_stores = some h) ∧
    (List.lookup (uploadPath sd.uploaded_file) st.disk = none →
      chat_endpoint o sid q st =
        (ChatResult.reloadFailed500
          ("Failed to reload document: File " ++ uploadPath sd.uploaded_file ++ " not found."),
         st)) := by
  constructor
  · intro c h a hc hi tok ha
    simp [chat_endpoint, hm, hv, hu, hc, hi, tok, ha, save_sessions, lookup_dictSet_self]
  · intro hc
    simp [chat_endpoint, hm, hv, hu, hc]

/-- C7: the content-type rejection evaluated on a concrete non-PDF upload.
In src/main.py the check fires before any disk write (nothing is written,
the state comes back unchanged), but the HTTPException(400) raised at line
132 is swallowed by the blanket `except Exception` of line 165 and surfaces
to the client as a 500, not the documented 400.  src/backend_api.py performs
no content-type validation at all: the same non-PDF upload is written to
disk and even answers 200 when its bytes happen to ingest cleanly. -/
theorem upload_content_type_rejection_bug :
    upload_pdf testOracle "text/plain" "notes.txt" 3 "s1" demoState =
      (UploadResult.error500
        "An error occurred during processing: 400: Invalid file type. Only PDFs are allowed.",
       demoState) ∧
    backend_upload testOracle "text/plain" "notes.txt" 3 "s9" [] [] =
      (BUploadResult.ok "s9", [("s9", ⟨some 3⟩)], [("uploaded_pdfs/notes.txt", 3)]) := by
  constructor
  · rfl
  · rfl

/-- C8: a successful upload under a session id that already has a record
silently replaces the record wholesale: it becomes (title = filename,
history = [], uploaded_file = filename) and the index handle becomes the
fresh one; the endpoint has no conflict failure and merges nothing. -/
theorem reupload_replaces_record (o : Oracle) (filename : String) (c h : Nat)
    (sid : String) (st : ServerState) (old : SessionData)
    (_hold : List.lookup sid st.session_memory = some old)
    (hing : o.ingest c = Except.ok h) :
    (upload_pdf o "application/pdf" filename c sid st).1 = UploadResult.ok sid ∧
    List.lookup sid (upload_pdf o "application/pdf" filename c sid st).2.session_memory =
      some ⟨filename, [], filename⟩ ∧
    List.lookup sid (upload_pdf o "application/pdf" filename c sid st).2.vector_stores =
      some h := by
  simp [upload_pdf, hing, save_sessions, lookup_dictSet_self]

/-- C9: the persisted path of an upload is `uploadPath filename`, independent
of the session id, so two successful uploads with the same original filename
under different sessions write the same path: after the second upload that
path holds the second upload's bytes while the first session's record still
points at that same filename. -/
theorem filename_collision_across_sessions (o : Oracle) (fn : String)
    (sid1 sid2 : String) (c1 c2 h1 h2 : Nat) (st : ServerState)
    (h12 : sid1 ≠ sid2)
    (hi1 : o.ingest c1 = Except.ok h1) (hi2 : o.ingest c2 = Except.ok h2) :
    List.lookup (uploadPath fn)
        ((upload_pdf o "application/pdf" fn c2 sid2
          (upload_pdf o "application/pdf" fn c1 sid1 st).2).2).disk = some c2 ∧
    List.lookup sid1
        ((upload_pdf o "application/pdf" fn c2 sid2
          (upload_pdf o "application/pdf" fn c1 sid1 st).2).2).session_memory =
      some ⟨fn, [], fn⟩ := by
  simp [upload_pdf, hi1, hi2, save_sessions, lookup_dictSet_self,
        lookup_dictSet_ne _ _ _ _ h12]

/-- C10: the mutating operations keyed by one session id — delete of s,
upload under s (any outcome), and a chat turn on s (any outcome) — leave the
record and the index handle of every other session id t unchanged. -/
theorem frame_other_sessions (s t : String) (hne : t ≠ s) (st : ServerState) :
    preservesOther st (delete_session s st).2 t ∧
    (∀ (o : Oracle) (ct fn : String) (c : Nat),
      preservesOther st (upload_pdf o ct fn c s st).2 t) ∧
    (∀ (o : Oracle) (q : String),
      preservesOther st (chat_endpoint o s q st).2 t) := by
  refine ⟨?_, ?_, ?_⟩
  · by_cases hs : (List.lookup s st.session_memory).isSome
    · simp [delete_session, hs, save_sessions, preservesOther,
            lookup_dictDel_ne _ _ _ hne]
    · simp [delete_session, hs, preservesOther]
  · intro o ct fn c
    by_cases hct : ct ≠ "application/pdf"
    · simp [upload_pdf, hct, preservesOther]
    · cases hi : o.ingest c with
      | error e => simp [upload_pdf, hct, hi, preservesOther]
      | ok h =>
        simp [upload_pdf, hct, hi, save_sessions, preservesOther,
              lookup_dictSet_ne _ _ _ _ hne]
  · intro o q
    cases hm : List.lookup s st.session_memory with
    | none => simp [chat_endpoint, hm, preservesOther]
    | some sd =>
      cases hv : List.lookup s st.vector_stores with
      | some h =>
        by_cases tok : o.hfToken = false
        · simp [chat_endpoint, hm, hv, tok, preservesOther]
        · cases ha : o.llm h (String.intercalate "\n" sd.history) q with
          | error e => simp [chat_endpoint, hm, hv, tok, ha, preservesOther]
          | ok a =>
            simp [chat_endpoint, hm, hv, tok, ha, save_sessions, preservesOther,
                  lookup_dictSet_ne _ _ _ _ hne]
      | none =>
        by_cases hu : sd.uploaded_file = ""
        · simp [chat_endpoint, hm, hv, hu, preservesOther]
        · cases hc : List.lookup (uploadPath sd.uploaded_file) st.disk with
          | none => simp [chat_endpoint, hm, hv, hu, hc, preservesOther]
          | some c =>
            cases hi : o.ingest c with
            | error e => simp [chat_endpoint, hm, hv, hu, hc, hi, preservesOther]
            | ok h =>
              by_cases tok : o.hfToken = false
              · simp [chat_endpoint, hm, hv, hu, hc, hi, tok, preservesOther,
                      lookup_dictSet_ne _ _ _ _ hne]
              · cases ha : o.llm h (String.intercalate "\n" sd.history) q with
                | error e =>
                  simp [chat_endpoint, hm, hv, hu, hc, hi, tok, ha, preservesOther,
                        lookup_dictSet_ne _ _ _ _ hne]
                | ok a =>
                  simp [chat_endpoint, hm, hv, hu, hc, hi, tok, ha, save_sessions,
                        preservesOther, lookup_dictSet_ne _ _ _ _ hne]

/-- Witness for C3: one chat call against the concrete demo state appends
exactly one (user, assistant) pair. -/
theorem append_turn_order_preserving_witness :
    testOracle.hfToken = true ∧
    ∃ ps : List (String × String),
      ps.map Prod.fst = ["hi"] ∧
      List.lookup "s1" (chat_calls testOracle "s1" ["hi"] demoState).session_memory =
        some ⟨"doc.pdf", [] ++ pairsOf ps, "doc.pdf"⟩ ∧
      (pairsOf ps).length = 2 * (["hi"] : List String).length :=
  ⟨rfl,
   append_turn_order_preserving testOracle "s1" ["hi"] demoState
     ⟨"doc.pdf", [], "doc.pdf"⟩ 7 (by decide) (by decide) rfl
     (fun _ _ _ => ⟨"ok", rfl⟩)⟩

/-- Witness for C4 (amended), at concrete inputs: a 404 without side effects
on main.py's chat for an unknown id, a 400 for a record with no document,
and backend_api's record-creating 400 on an unknown id. -/
theorem chat_unknown_session_amended_witness :
    chat_endpoint testOracle "zz" "q" demoState = (ChatResult.notFound404, demoState) ∧
    chat_endpoint testOracle "s2" "q" demoStateNoDoc =
      (ChatResult.noDocument400, demoStateNoDoc) ∧
    (backend_chat testOracle "zz" "q" []).1 = BChatResult.noPdf400 ∧
    (backend_chat testOracle "zz" "q" []).2 = [] ++ [("zz", ⟨none⟩)] := by
  have h3 := chat_unknown_session_amended.2.2 testOracle "zz" "q" [] rfl
  exact ⟨chat_unknown_session_amended.1 testOracle "zz" "q" demoState (by decide),
         chat_unknown_session_amended.2.1 testOracle "s2" "q" demoStateNoDoc
           ⟨"New Chat", [], ""⟩ (by decide) rfl rfl,
         h3.1, h3.2⟩

/-- Witness for C5 at concrete inputs: deleting the present "s1" removes the
record and the handle and a chat afterwards gives 404; deleting the absent
"zz" gives 404 unchanged. -/
theorem delete_session_semantics_witness :
    (delete_session "s1" demoState).1 =
        DeleteResult.ok ("Session " ++ "s1" ++ " deleted successfully.") ∧
    List.lookup "s1" (delete_session "s1" demoState).2.session_memory = none ∧
    List.lookup "s1" (delete_session "s1" demoState).2.vector_stores = none ∧
    chat_endpoint testOracle "s1" "q" (delete_session "s1" demoState).2 =
      (ChatResult.notFound404, (delete_session "s1" demoState).2) ∧
    delete_session "zz" demoState = (DeleteResult.notFound404, demoState) := by
  have h1 := (delete_session_semantics "s1" demoState).1 ⟨"doc.pdf", [], "doc.pdf"⟩ (by decide)
  exact ⟨h1.1, h1.2.1, h1.2.2.1, h1.2.2.2 testOracle "q",
         (delete_session_semantics "zz" demoState).2 (by decide)⟩

/-- Witness for C6 at concrete inputs: "s1" has no index but its file is on
disk, so chat rebuilds and answers; "s3" has no index and no file, so chat
fails with the missing-file 500. -/
theorem chat_lazy_rebuild_witness :
    (chat_endpoint testOracle "s1" "q" demoStateCold).1 = ChatResult.ok "ok" ∧
    List.lookup "s1" (chat_endpoint testOracle "s1" "q" demoStateCold).2.vector_stores =
      some 7 ∧
    chat_endpoint testOracle "s3" "q" demoStateCold =
      (ChatResult.reloadFailed500
        ("Failed to reload document: File " ++ uploadPath "gone.pdf" ++ " not found."),
       demoStateCold) := by
  have a := (chat_lazy_rebuild testOracle "s1" "q" demoStateCold
      ⟨"doc.pdf", ["Human: hi", "AI: ok"], "doc.pdf"⟩ (by decide) rfl (by decide)).1
      7 7 "ok" (by decide) rfl rfl rfl
  have b := (chat_lazy_rebuild testOracle "s3" "q" demoStateCold
      ⟨"gone.pdf", [], "gone.pdf"⟩ (by decide) rfl (by decide)).2 (by decide)
  exact ⟨a.1, a.2, b⟩

/-- Witness for C8 at concrete inputs: re-uploading under "s1", which already
holds a record, replaces that record and its handle. -/
theorem reupload_replaces_record_witness :
    (upload_pdf testOracle "application/pdf" "new.pdf" 9 "s1" demoState).1 =
        UploadResult.ok "s1" ∧
    List.lookup "s1"
        (upload_pdf testOracle "application/pdf" "new.pdf" 9 "s1" demoState).2.session_memory =
      some ⟨"new.pdf", [], "new.pdf"⟩ ∧
    List.lookup "s1"
        (upload_pdf testOracle "application/pdf" "new.pdf" 9 "s1" demoState).2.vector_stores =
      some 9 :=
  reupload_replaces_record testOracle "new.pdf" 9 9 "s1" demoState
    ⟨"doc.pdf", [], "doc.pdf"⟩ (by decide) rfl

/-- Witness for C9 at concrete inputs: uploads of "doc.pdf" under "sA" then
"sB" land on the same path; the second upload's bytes win while "sA"'s
record still points at that filename. -/
theorem filename_collision_across_sessions_witness :
    List.lookup (uploadPath "doc.pdf")
        ((upload_pdf testOracle "application/pdf" "doc.pdf" 21 "sB"
          (upload_pdf testOracle "application/pdf" "doc.pdf" 20 "sA" demoState).2).2).disk =
      some 21 ∧
    List.lookup "sA"
        ((upload_pdf testOracle "application/pdf" "doc.pdf" 21 "sB"
          (upload_pdf testOracle "application/pdf" "doc.pdf" 20 "sA" demoState).2).2).session_memory =
      some ⟨"doc.pdf", [], "doc.pdf"⟩ :=
  filename_collision_across_sessions testOracle "doc.pdf" "sA" "sB" 20 21 20 21 demoState
    (by decide) rfl rfl

/-- Witness for C10 at concrete inputs: delete, upload and chat keyed by the
(absent) id "s9" leave session "s1" untouched. -/
theorem frame_other_sessions_witness :
    preservesOther demoState (delete_session "s9" demoState).2 "s1" ∧
    preservesOther demoState
      (upload_pdf testOracle "application/pdf" "x.pdf" 5 "s9" demoState).2 "s1" ∧
    preservesOther demoState (chat_endpoint testOracle "s9" "q" demoState).2 "s1" := by
  have h := frame_other_sessions "s9" "s1" (by decide) demoState
  exact ⟨h.1, h.2.1 testOracle "application/pdf" "x.pdf" 5, h.2.2 testOracle "q"⟩
